import Mathlib

/-!
Verification of the structured-output recovery pipeline, warm-up controller,
liveness prober and response-text extraction of the `ai-code-agent`
repository, as a shallow embedding in Lean 4.

Sources embedded:
* `src/services/structuring.py` : `CodeOutput`, `extract_text`,
  `robust_parse_to_dict` (its deterministic cleaning stage), and
  `fallback_extract_code`.
* `src/services/ollama_utils.py` : `check_ollama_health`, `model_in_tags`,
  `warmup_ollama`.
* `src/agents/ai_code_agent.py` : `AICodeAgent.generate_structured`
  (lines 91-122), its try/except parse-validate-fallback control flow.

External effects (HTTP calls, the LLM, the `dirtyjson` parser) are inputs of
the embedded functions: an HTTP call outcome is an `Except`, the parse result
of `dirtyjson.loads` is an `Except Unit JValue` supplied by the environment.
All definitions are structurally recursive so that concrete runs reduce in
the kernel.
-/

namespace AiCodeAgent

/-! ## Python string helpers

`pyWs` is the ASCII whitespace class of Python's `str.strip()` and of the
regex class `\s` (space, tab, newline, carriage return, vertical tab, form
feed).  Non-ASCII whitespace is not exercised by any input considered here. -/

def pyWs (c : Char) : Bool :=
  c = ' ' || c = '\t' || c = '\n' || c = '\r' || c = '\x0b' || c = '\x0c'

/-- Python `str.strip()`: drop `pyWs` characters from both ends. -/
def pyStrip (cs : List Char) : List Char :=
  ((cs.dropWhile pyWs).reverse.dropWhile pyWs).reverse

/-! ## `fallback_extract_code` (structuring.py lines 41-43)

The source runs `re.search(r"` ```(?:python)?\s*(.*?)``` `", text, re.DOTALL | re.IGNORECASE)`
and returns `m.group(1).strip()` when a match exists, else `None`.

Embedding of the regex semantics: `re.search` takes the leftmost match.  At
the first occurrence of the three-backtick opener, the optional `python` tag
(case-insensitive, greedy) is consumed if literally present, then the greedy
`\s*` consumes the maximal whitespace run, then the lazy group captures up to
the earliest following three-backtick occurrence.  Backtracking never changes
this outcome: a backtick is neither a `python` letter nor whitespace, so no
closing fence can begin inside the consumed tag or whitespace run, and if no
closing occurrence follows the first opener then no occurrence follows any
later opener either (any such closing occurrence would already have closed
the first opener), hence the whole search fails exactly when the procedure
below fails. -/

/-- Split a character list at the first occurrence of three consecutive
backticks: returns the segment before it and the remainder after it. -/
def splitFence : List Char → Option (List Char × List Char)
  | [] => none
  | c :: rest =>
    if c = '`' ∧ rest.take 2 = ['`', '`'] then some ([], rest.drop 2)
    else (splitFence rest).map fun p => (c :: p.1, p.2)

/-- Does the list begin with the six letters of `python`, case-insensitively?
Embeds the greedy optional group `(?:python)?` under `re.IGNORECASE`. -/
def pythonTagCI (cs : List Char) : Bool :=
  (cs.take 6).map Char.toLower = ['p', 'y', 't', 'h', 'o', 'n']

/-- Consume a leading case-insensitive `python` language tag when present. -/
def dropPythonTag (cs : List Char) : List Char :=
  if pythonTagCI cs then cs.drop 6 else cs

/-- Core of `fallback_extract_code` on character lists: first fenced block's
captured body, stripped, or `none` when the pattern has no match. -/
def fallback_extract_code_core (cs : List Char) : Option (List Char) :=
  match splitFence cs with
  | none => none
  | some (_, afterOpen) =>
    match splitFence ((dropPythonTag afterOpen).dropWhile pyWs) with
    | none => none
    | some (body, _) => some (pyStrip body)

/-- `fallback_extract_code(agent_text)` from `structuring.py`. -/
def fallback_extract_code (s : String) : Option String :=
  (fallback_extract_code_core s.data).map String.mk

/-! ## Cleaning stage of `robust_parse_to_dict` (structuring.py lines 37-39)

The source computes `text.replace("assistant:", "").strip()` and hands the
result to `dirtyjson.loads`.  `str.replace` removes every left-to-right
non-overlapping occurrence, not only a leading one. -/

/-- The characters of the literal `"assistant:"`. -/
def assistantTag : List Char :=
  ['a', 's', 's', 'i', 's', 't', 'a', 'n', 't', ':']

/-- Python `text.replace("assistant:", "")`: scan left to right; on a match
of the ten tag characters skip past them, otherwise keep one character. -/
def removeTagAll : List Char → List Char
  | 'a' :: 's' :: 's' :: 'i' :: 's' :: 't' :: 'a' :: 'n' :: 't' :: ':' :: rest =>
    removeTagAll rest
  | c :: rest => c :: removeTagAll rest
  | [] => []

/-- The deterministic cleaning stage of `robust_parse_to_dict`:
`text.replace("assistant:", "").strip()`. -/
def robust_clean (s : String) : String :=
  String.mk (pyStrip (removeTagAll s.data))

/-- Cleaning as the specification words it (spec §4.4 step 2 and the C7
sentence): strip only a *leading* literal `"assistant:"` prefix, then trim;
text elsewhere is left unchanged.  Stated for comparison with
`robust_clean`, which embeds the source. -/
def clean_spec_leading_only (s : String) : String :=
  if s.data.take 10 = assistantTag then String.mk (pyStrip (s.data.drop 10))
  else String.mk (pyStrip s.data)

/-! ## JSON values and `generate_structured` (ai_code_agent.py lines 91-122)

`dirtyjson.loads` is an external library; its outcome (a parse error, or a
JSON value) is an input of the embedded control flow.  Numbers are modelled
as integers — no claim depends on float payload values. -/

/-- A parsed JSON value as produced by `dirtyjson.loads`. -/
inductive JValue where
  | str (s : String)
  | num (n : Int)
  | bool (b : Bool)
  | null
  | arr (xs : List JValue)
  | obj (fields : List (String × JValue))

/-- Does `pat` occur as a contiguous substring of the second list?  Embeds
Python's `in` test on strings. -/
def hasSub (pat : List Char) : List Char → Bool
  | [] => pat.isEmpty
  | c :: rest => pat.isPrefixOf (c :: rest) || hasSub pat rest

/-- Key membership in an object payload: Python `k in payload` for a dict. -/
def hasKey (fs : List (String × JValue)) (k : String) : Bool :=
  fs.any fun p => p.1 == k

/-- Python `k in payload` for an arbitrary payload: key membership for a
dict, element membership for a list, substring test for a string, and a
`TypeError` (modelled as `Except.error`) for the non-container values. -/
def jHasKey : JValue → String → Except Unit Bool
  | .obj fs, k => .ok (hasKey fs k)
  | .arr xs, k => .ok (xs.any fun v => match v with | .str s => s == k | _ => false)
  | .str s, k => .ok (hasSub k.data s.data)
  | _, _ => .error ()

/-- One iteration of `for k in ("code", "description", "filename"): if k not
in payload: raise KeyError(k)` — an error is either the `KeyError` or a
`TypeError` from the membership test itself. -/
def keyStep (payload : JValue) (k : String) : Except Unit Unit :=
  match jHasKey payload k with
  | .error _ => .error ()
  | .ok b => if b then .ok () else .error ()

/-- The guarded `try` block of `generate_structured`: parse outcome of
`robust_parse_to_dict(structured_text)` followed by the three key checks.
Any exception inside yields `Except.error`, which the source catches. -/
def try_parse_and_validate (pr : Except Unit JValue) : Except Unit JValue :=
  match pr with
  | .error e => .error e
  | .ok payload =>
    match keyStep payload "code" with
    | .error _ => .error ()
    | .ok _ =>
      match keyStep payload "description" with
      | .error _ => .error ()
      | .ok _ =>
        match keyStep payload "filename" with
        | .error _ => .error ()
        | .ok _ => .ok payload

/-- `CodeOutput` from `structuring.py`: the pydantic model with three string
fields. -/
structure CodeOutput where
  code : String
  description : String
  filename : String
deriving DecidableEq

/-- Errors escaping `generate_structured`: the explicit
`RuntimeError("Failed to parse structured output and no fenced code
found.")` (the spec's `StructuringFailed`), and a pydantic
`ValidationError`/`TypeError` from `CodeOutput(**payload)`. -/
inductive GenError where
  | structuringFailed
  | constructError
deriving DecidableEq

/-- Dict lookup: the value stored under `k` (for a dict built left to right,
the last binding wins). -/
def lookupLast (fs : List (String × JValue)) (k : String) : Option JValue :=
  (fs.reverse.find? fun p => p.1 == k).map Prod.snd

/-- The string carried by a JSON value, when it is a string.  pydantic v2
(required by the installed llama-index) accepts only `str` for a `str`
field; every other value raises a `ValidationError`. -/
def asStr : JValue → Option String
  | .str s => some s
  | _ => none

/-- `CodeOutput(**payload)`: fails (`TypeError`) on a non-dict payload and
(`ValidationError`) when one of the three fields is missing or not a
string; extra keys are ignored (pydantic default). -/
def construct_code_output : JValue → Except GenError CodeOutput
  | .obj fs =>
    match (lookupLast fs "code").bind asStr,
          (lookupLast fs "description").bind asStr,
          (lookupLast fs "filename").bind asStr with
    | some c, some d, some f => .ok ⟨c, d, f⟩
    | _, _, _ => .error .constructError
  | _ => .error .constructError

/-- The `except` branch of `generate_structured`: recover from the original
raw `agent_text`.  `if not code_blk` also treats an *empty* extracted block
as absent (Python falsiness). -/
def fallback_step (agent_text : String) : Except GenError CodeOutput :=
  match fallback_extract_code agent_text with
  | none => .error .structuringFailed
  | some c =>
    if c = "" then .error .structuringFailed
    else construct_code_output (.obj
      [("code", .str c),
       ("description", .str "Recovered from fenced code block (fallback)."),
       ("filename", .str "generated_code.py")])

/-- `generate_structured` after the agent and coercion calls: `agent_text`
is the raw agent response, `pr` the outcome of parsing the coerced text.
Note `CodeOutput(**payload)` sits *outside* the `try`, so its failures are
not recovered. -/
def generate_structured (agent_text : String) (pr : Except Unit JValue) :
    Except GenError CodeOutput :=
  match try_parse_and_validate pr with
  | .ok payload => construct_code_output payload
  | .error _ => fallback_step agent_text

/-! ## `warmup_ollama` (ollama_utils.py lines 24-37)

The loop `for attempt in range(1, retries + 1)` performs one `generate`
call per iteration; on failure it sleeps `backoff_sec * 2 ** (attempt - 1)`
seconds unless the attempt was the last.  The backend is an input
`genOk : Nat → Bool` giving each attempt's outcome; sleep durations are
rationals (every float arising here, `backoff * 2 ^ k`, is exact). -/

inductive WarmupOutcome where
  | succeeded
  | gaveUp
deriving DecidableEq

/-- Observable behaviour of one warm-up call: number of `generate` attempts
performed, the sleep durations in order, and the outcome.  The source never
raises: the `except Exception` swallows every generate failure. -/
structure WarmupTrace where
  attempts : Nat
  sleeps : List ℚ
  outcome : WarmupOutcome
deriving DecidableEq

/-- The warm-up loop from `attempt` on, with `fuel` iterations remaining
(`fuel = retries - attempt + 1` at entry). -/
def warmupGo (genOk : Nat → Bool) (retries : Nat) (backoff : ℚ) :
    Nat → Nat → Nat × List ℚ × WarmupOutcome
  | 0, _ => (0, [], .gaveUp)
  | fuel + 1, attempt =>
    if genOk attempt then (1, [], .succeeded)
    else
      let rest := warmupGo genOk retries backoff fuel (attempt + 1)
      (1 + rest.1,
       (if attempt < retries then [backoff * 2 ^ (attempt - 1)] else []) ++ rest.2.1,
       rest.2.2)

/-- `warmup_ollama` with retry count `retries` and base backoff
`backoff_sec`, run against a backend whose attempt outcomes are `genOk`. -/
def warmup_ollama (retries : Nat) (backoff_sec : ℚ) (genOk : Nat → Bool) :
    WarmupTrace :=
  let r := warmupGo genOk retries backoff_sec retries 1
  ⟨r.1, r.2.1, r.2.2⟩

/-! ## Liveness prober (ollama_utils.py lines 4-22)

The HTTP call `httpx.get(f"...{base_url}/api/tags")` together with
`raise_for_status` and the JSON decoding is external; its outcome is the
input.  For `model_in_tags` a successful outcome is the decoded tag list:
each entry is `some name` when the object carries a `"name"` key, `none`
otherwise. -/

/-- `check_ollama_health`: `True` on a successful tags call, `False` on any
exception (never re-raised). -/
def check_ollama_health (resp : Except Unit Unit) : Bool :=
  match resp with
  | .ok _ => true
  | .error _ => false

/-- `model_in_tags`: on success, build the set of `name` fields and test
membership of the exact model string; on any exception return `False`. -/
def model_in_tags (resp : Except Unit (List (Option String))) (model : String) :
    Bool :=
  match resp with
  | .error _ => false
  | .ok tags => tags.any fun m => m == some model

/-! ## `extract_text` (structuring.py lines 27-35)

A Python attribute value is modelled by `AgentVal`: a string, an object
exposing a `content` attribute, or an object without one; non-string
objects carry their truthiness (`bool(val)`).  A result object carries the
four optional attributes and its `str()` representation. -/

inductive AgentVal where
  | str (s : String)
  | wrapped (content : AgentVal) (truthyFlag : Bool)
  | plain (truthyFlag : Bool)

/-- Python truthiness of an attribute value (a string is truthy iff
non-empty). -/
def truthy : AgentVal → Bool
  | .str s => s ≠ ""
  | .wrapped _ t => t
  | .plain t => t

/-- A result object returned by the agent or the pipeline. -/
structure ResultObj where
  text : Option AgentVal
  message : Option AgentVal
  response : Option AgentVal
  content : Option AgentVal
  strRepr : String

/-- The body of one loop iteration of `extract_text` for attribute value
`v`: `none` means the attribute is absent, falsy, or neither a wrapper with
string `content` nor a string — the loop then moves to the next name. -/
def tryAttr : Option AgentVal → Option String
  | none => none
  | some val =>
    if truthy val then
      match val with
      | .wrapped (.str c) _ => some c
      | .str s => some s
      | _ => none
    else none

/-- `extract_text(result_obj)`: try `text`, `message`, `response`, `content`
in order, else fall back to `str(result_obj)`. -/
def extract_text (r : ResultObj) : String :=
  match tryAttr r.text with
  | some s => s
  | none =>
    match tryAttr r.message with
    | some s => s
    | none =>
      match tryAttr r.response with
      | some s => s
      | none =>
        match tryAttr r.content with
        | some s => s
        | none => r.strRepr

/-! ## Helper lemmas -/

/-- Unfolding of `construct_code_output` on an object payload. -/
theorem construct_obj_eq (fs : List (String × JValue)) :
    construct_code_output (.obj fs) =
      match (lookupLast fs "code").bind asStr,
            (lookupLast fs "description").bind asStr,
            (lookupLast fs "filename").bind asStr with
      | some c, some d, some f => .ok ⟨c, d, f⟩
      | _, _, _ => .error .constructError := rfl

/-- Constructing from a payload with exactly the three required string
fields succeeds and copies the strings verbatim. -/
theorem construct_literal (c d f : String) :
    construct_code_output (.obj
      [("code", .str c), ("description", .str d), ("filename", .str f)]) =
      .ok ⟨c, d, f⟩ := rfl

/-- The guarded block succeeds on an object payload containing all three
required keys. -/
theorem try_obj_ok (fs : List (String × JValue))
    (h1 : hasKey fs "code" = true) (h2 : hasKey fs "description" = true)
    (h3 : hasKey fs "filename" = true) :
    try_parse_and_validate (.ok (.obj fs)) = .ok (.obj fs) := by
  simp [try_parse_and_validate, keyStep, jHasKey, h1, h2, h3]

/-- The guarded block fails on an object payload missing one of the three
required keys. -/
theorem try_obj_fail (fs : List (String × JValue))
    (h : hasKey fs "code" = false ∨ hasKey fs "description" = false ∨
      hasKey fs "filename" = false) :
    try_parse_and_validate (.ok (.obj fs)) = .error () := by
  cases hc : hasKey fs "code" <;> cases hd : hasKey fs "description" <;>
    cases hf : hasKey fs "filename" <;>
    simp_all [try_parse_and_validate, keyStep, jHasKey]

/-- When the guarded block fails and fallback extraction yields a non-empty
block, `generate_structured` returns the degraded artifact. -/
theorem gen_fallback_result (a : String) (pr : Except Unit JValue) (c : String)
    (h1 : try_parse_and_validate pr = .error ())
    (h2 : fallback_extract_code a = some c) (h3 : c ≠ "") :
    generate_structured a pr =
      .ok ⟨c, "Recovered from fenced code block (fallback).",
        "generated_code.py"⟩ := by
  simp only [generate_structured, h1, fallback_step, h2]
  rw [if_neg h3, construct_literal]

/-- Splitting at the head when the list opens with a fence. -/
theorem splitFence_open (t : List Char) :
    splitFence ('`' :: '`' :: '`' :: t) = some ([], t) := rfl

/-- A lower-case python tag at the head is consumed. -/
theorem dropPythonTag_lower (rest : List Char) :
    dropPythonTag ('p' :: 'y' :: 't' :: 'h' :: 'o' :: 'n' :: rest) = rest := rfl

/-- An upper-case python tag at the head is consumed. -/
theorem dropPythonTag_upper (rest : List Char) :
    dropPythonTag ('P' :: 'Y' :: 'T' :: 'H' :: 'O' :: 'N' :: rest) = rest := rfl

/-- Without a python tag at the head, nothing is consumed. -/
theorem dropPythonTag_of_not (rest : List Char) (h : pythonTagCI rest = false) :
    dropPythonTag rest = rest := by
  simp [dropPythonTag, h]

/-- A literal `"assistant:"` at the head of the scan is removed. -/
theorem removeTagAll_tag (rest : List Char) :
    removeTagAll ('a' :: 's' :: 's' :: 'i' :: 's' :: 't' :: 'a' :: 'n' :: 't'
      :: ':' :: rest) = removeTagAll rest := rfl

set_option maxHeartbeats 1000000 in
/-- A character other than `a` can never open the tag, so the scan keeps
it. -/
theorem removeTagAll_cons_ne (c : Char) (rest : List Char) (h : c ≠ 'a') :
    removeTagAll (c :: rest) = c :: removeTagAll rest := by
  rw [removeTagAll.eq_def]
  split <;> simp_all

/-- A list free of the letter `a` contains no tag occurrence and is kept
verbatim. -/
theorem removeTagAll_no_a (l : List Char) (h : ∀ c ∈ l, c ≠ 'a') :
    removeTagAll l = l := by
  induction l with
  | nil => rfl
  | cons c rest ih =>
    rw [removeTagAll_cons_ne c rest (h c (List.mem_cons_self c rest)),
      ih fun x hx => h x (List.mem_cons_of_mem c hx)]

/-- `str.replace` removes a tag occurrence wherever it sits, also mid-text:
with surroundings free of the letter `a`, the unique occurrence goes. -/
theorem removeTagAll_mid (a b : List Char) (ha : ∀ c ∈ a, c ≠ 'a')
    (hb : ∀ c ∈ b, c ≠ 'a') :
    removeTagAll (a ++ assistantTag ++ b) = a ++ b := by
  induction a with
  | nil =>
    simp only [List.nil_append]
    rw [show assistantTag ++ b = 'a' :: 's' :: 's' :: 'i' :: 's' :: 't' :: 'a'
      :: 'n' :: 't' :: ':' :: b from rfl, removeTagAll_tag,
      removeTagAll_no_a b hb]
  | cons c a' ih =>
    simp only [List.cons_append]
    rw [removeTagAll_cons_ne _ _ (ha c (List.mem_cons_self _ _)),
      ih fun x hx => ha x (List.mem_cons_of_mem _ hx)]

/-! ## Claim theorems -/

/-- C1: warm-up with `maxRetries = 3`, `baseBackoff = 5` against a backend
whose generate call always fails performs exactly 3 attempts, sleeps 5 then
10 seconds (no sleep after the final attempt), and returns GaveUp; the
embedding is a total function, mirroring the `except Exception` that keeps
any failure from escaping. -/
theorem C1_warmup_retry_schedule (genOk : Nat → Bool)
    (h : ∀ n, genOk n = false) :
    warmup_ollama 3 5 genOk = ⟨3, [5, 10], .gaveUp⟩ := by
  simp [warmup_ollama, warmupGo, h]
  norm_num

/-- Witness for C1: the always-failing backend. -/
theorem C1_warmup_retry_schedule_witness :
    warmup_ollama 3 5 (fun _ => false) = ⟨3, [5, 10], .gaveUp⟩ :=
  C1_warmup_retry_schedule (fun _ => false) fun _ => rfl

/-- C2: for every structured request whose coerced text fails JSON parsing
or field validation (the guarded block errors) and whose original raw agent
response contains no fenced code block (the fallback pattern has no match),
`generate_structured` raises `StructuringFailed`; there is no third
fallback returning an empty or partial artifact. -/
theorem C2_terminal_failure (a : String) (pr : Except Unit JValue)
    (h1 : try_parse_and_validate pr = .error ())
    (h2 : fallback_extract_code a = none) :
    generate_structured a pr = .error .structuringFailed := by
  simp [generate_structured, h1, fallback_step, h2]

/-- Witness for C2 at a concrete run: a plain refusal sentence with a
failing parse ends in `StructuringFailed`. -/
theorem C2_terminal_failure_witness :
    generate_structured "I cannot produce code for that." (.error ()) =
      .error .structuringFailed :=
  C2_terminal_failure "I cannot produce code for that." (.error ()) rfl
    (by decide)

/-- C3: a payload that parses to a dictionary lacking at least one of the
keys `code`, `description`, `filename` is treated as a parse failure: the
result is exactly that of fallback extraction on the original raw response,
never an artifact built from the partial key set. -/
theorem C3_missing_key_falls_through (a : String)
    (fs : List (String × JValue))
    (h : hasKey fs "code" = false ∨ hasKey fs "description" = false ∨
      hasKey fs "filename" = false) :
    generate_structured a (.ok (.obj fs)) = fallback_step a := by
  simp only [generate_structured, try_obj_fail fs h]

/-- Witness for C3 at a concrete run: a payload holding only `code` falls
through to the fenced block of the raw response. -/
theorem C3_missing_key_falls_through_witness :
    generate_structured "pre\n```\nz = 1\n```" (.ok (.obj [("code", .str "x")]))
      = fallback_step "pre\n```\nz = 1\n```" ∧
    fallback_step "pre\n```\nz = 1\n```" =
      .ok ⟨"z = 1", "Recovered from fenced code block (fallback).",
        "generated_code.py"⟩ :=
  ⟨C3_missing_key_falls_through "pre\n```\nz = 1\n```" [("code", .str "x")]
    (Or.inr (Or.inl (by decide))), by rfl⟩

/-- C4 counterexample: the claim fails for a raw response whose first
fenced block has a whitespace-only body — the block is present and its
trimmed body is the empty string, yet `if not code_blk` treats the empty
string as absent and the run raises `StructuringFailed` instead of
returning an artifact with that (empty) code. -/
theorem C4_counterexample :
    fallback_extract_code "Sure:\n```\n \n```" = some "" ∧
    generate_structured "Sure:\n```\n \n```" (.error ()) =
      .error .structuringFailed :=
  ⟨by decide, rfl⟩

/-- C4 (amended): when the guarded block fails and the original raw
response contains a fenced code block, the outcome is decided by the
block's trimmed body: a non-empty body yields the artifact with that body
as code, the fixed fallback description and the fixed default filename,
while an empty (whitespace-only) body is treated as no block by the
falsiness test and raises `StructuringFailed`. -/
theorem C4_fallback_artifact (a : String) (pr : Except Unit JValue)
    (c : String) (h1 : try_parse_and_validate pr = .error ())
    (h2 : fallback_extract_code a = some c) :
    generate_structured a pr =
      if c = "" then .error .structuringFailed
      else .ok ⟨c, "Recovered from fenced code block (fallback).",
        "generated_code.py"⟩ := by
  simp only [generate_structured, h1, fallback_step, h2]
  by_cases hc : c = ""
  · rw [if_pos hc, if_pos hc]
  · rw [if_neg hc, if_neg hc, construct_literal]

/-- Witness for the amended C4: the end-to-end scenario of the
specification — raw text `"Sure, here:\n` ```python\nprint(1)\n``` `"`
with failing schema coercion yields exactly the degraded artifact with
code `print(1)`. -/
theorem C4_fallback_artifact_witness :
    generate_structured "Sure, here:\n```python\nprint(1)\n```" (.error ()) =
      .ok ⟨"print(1)", "Recovered from fenced code block (fallback).",
        "generated_code.py"⟩ := by
  rw [C4_fallback_artifact "Sure, here:\n```python\nprint(1)\n```" (.error ())
    "print(1)" rfl (by decide)]
  rfl

/-- C6 counterexample: the claim that every returned `CodeArtifact` has a
non-empty filename is false — a successfully parsed payload whose
`filename` field is the empty string is returned as-is, no fixed default is
substituted on the JSON path. -/
theorem C6_counterexample :
    (generate_structured "irrelevant raw text"
        (.ok (.obj [("code", .str "x"), ("description", .str "d"),
          ("filename", .str "")]))).map CodeOutput.filename = .ok "" := by
  rfl

/-- C6 (amended): only the fallback path guarantees the fixed, legal
default filename `generated_code.py`; the JSON-parse path copies the
payload's `filename` string verbatim with no emptiness or legality check. -/
theorem C6_filename_policy (a : String) (pr : Except Unit JValue)
    (c cs ds fns : String) :
    (try_parse_and_validate pr = .error () →
      fallback_extract_code a = some c → c ≠ "" →
      (generate_structured a pr).map CodeOutput.filename =
        .ok "generated_code.py") ∧
    generate_structured a
        (.ok (.obj [("code", .str cs), ("description", .str ds),
          ("filename", .str fns)])) = .ok ⟨cs, ds, fns⟩ := by
  refine ⟨fun h1 h2 h3 => ?_, rfl⟩
  rw [gen_fallback_result a pr c h1 h2 h3]
  rfl

/-- Witness for the amended C6: a fallback run carries the default
filename, and a parsed payload with an empty filename string is returned
unchanged. -/
theorem C6_filename_policy_witness :
    (generate_structured "t\n```\nz\n```" (.error ())).map CodeOutput.filename
        = .ok "generated_code.py" ∧
    generate_structured "t\n```\nz\n```"
        (.ok (.obj [("code", .str "x"), ("description", .str "d"),
          ("filename", .str "")])) = .ok ⟨"x", "d", ""⟩ :=
  ⟨(C6_filename_policy "t\n```\nz\n```" (.error ()) "z" "x" "d" "").1 rfl
      (by decide) (by decide),
    (C6_filename_policy "t\n```\nz\n```" (.error ()) "z" "x" "d" "").2⟩

/-- C10: when the payload parses to a dictionary with all three keys
present but some value that is not a string, `generate_structured` fails
with the construction error — neither `StructuringFailed` nor a fallback
recovery — because `CodeOutput(**payload)` runs outside the guarded
`try`. -/
theorem C10_construct_outside_guard (a : String)
    (fs : List (String × JValue)) (h1 : hasKey fs "code" = true)
    (h2 : hasKey fs "description" = true) (h3 : hasKey fs "filename" = true)
    (h4 : (lookupLast fs "code").bind asStr = none ∨
      (lookupLast fs "description").bind asStr = none ∨
      (lookupLast fs "filename").bind asStr = none) :
    generate_structured a (.ok (.obj fs)) = .error .constructError := by
  simp only [generate_structured, try_obj_ok fs h1 h2 h3, construct_obj_eq]
  split
  · rcases h4 with h | h | h <;> simp_all
  · rfl

/-- Witness for C10: a payload whose `code` value is `null`, even with a
fenced block available in the raw response, yields the construction error
rather than a fallback recovery. -/
theorem C10_construct_outside_guard_witness :
    generate_structured "x ```\ny\n``` z"
        (.ok (.obj [("code", .null), ("description", .str "d"),
          ("filename", .str "f.py")])) = .error .constructError :=
  C10_construct_outside_guard "x ```\ny\n``` z"
    [("code", .null), ("description", .str "d"), ("filename", .str "f.py")]
    (by decide) (by decide) (by decide) (Or.inl (by decide))

/-- C5 counterexample: extraction is *not* independent of the language tag —
with tag `js` the tag letters leak into the extracted code, while the same
body under tag `python` (or no tag) comes back clean, so the claim fails at
this input. -/
theorem C5_counterexample :
    fallback_extract_code "```js\nprint(1)\n```" = some "js\nprint(1)" ∧
    fallback_extract_code "```python\nprint(1)\n```" = some "print(1)" ∧
    fallback_extract_code "```\nprint(1)\n```" = some "print(1)" := by
  decide

/-- C5 (amended): fallback extraction returns the first block's trimmed
inner content, and the result is unchanged by an *optional `python` tag*
(case-insensitively) on the opening fence; any other language tag is kept
as part of the content. -/
theorem C5_python_tag_invariance (rest : List Char)
    (h : pythonTagCI rest = false) :
    fallback_extract_code_core ('`' :: '`' :: '`' :: 'p' :: 'y' :: 't' :: 'h'
        :: 'o' :: 'n' :: rest) =
      fallback_extract_code_core ('`' :: '`' :: '`' :: rest) ∧
    fallback_extract_code_core ('`' :: '`' :: '`' :: 'P' :: 'Y' :: 'T' :: 'H'
        :: 'O' :: 'N' :: rest) =
      fallback_extract_code_core ('`' :: '`' :: '`' :: rest) := by
  constructor <;>
    simp only [fallback_extract_code_core, splitFence_open,
      dropPythonTag_lower, dropPythonTag_upper, dropPythonTag_of_not rest h]

/-- Witness for the amended C5 on a concrete body. -/
theorem C5_python_tag_invariance_witness :
    pythonTagCI "\nx = 2\n```".data = false ∧
    fallback_extract_code_core ('`' :: '`' :: '`' :: 'p' :: 'y' :: 't' :: 'h'
        :: 'o' :: 'n' :: "\nx = 2\n```".data) =
      fallback_extract_code_core ('`' :: '`' :: '`' :: "\nx = 2\n```".data) :=
  ⟨by decide, (C5_python_tag_invariance "\nx = 2\n```".data (by decide)).1⟩

/-- C7 counterexample: the cleaning stage is not limited to a *leading*
role tag — a mid-text `"assistant:"` is removed as well, so the rest of the
text is not passed to the parser unchanged (compare the spec-worded
leading-only cleaner on the same input). -/
theorem C7_counterexample :
    robust_clean "a assistant:b" = "a b" ∧
    clean_spec_leading_only "a assistant:b" = "a assistant:b" := by
  decide

/-- C7 (amended): before parsing, the cleaner removes every left-to-right
occurrence of the literal `"assistant:"` anywhere in the coerced text — not
only a leading prefix — and then trims whitespace.  Stated for texts whose
surroundings contain no letter `a`, which pins the single occurrence. -/
theorem C7_removes_all_occurrences (a b : List Char)
    (ha : ∀ c ∈ a, c ≠ 'a') (hb : ∀ c ∈ b, c ≠ 'a') :
    robust_clean (String.mk (a ++ assistantTag ++ b)) =
      String.mk (pyStrip (a ++ b)) := by
  simp only [robust_clean]
  rw [removeTagAll_mid a b ha hb]

/-- Witness for the amended C7: a mid-text tag occurrence is removed. -/
theorem C7_removes_all_occurrences_witness :
    robust_clean (String.mk ("x ".data ++ assistantTag ++ "1".data)) =
      String.mk (pyStrip ("x ".data ++ "1".data)) :=
  C7_removes_all_occurrences "x ".data "1".data (by decide) (by decide)

/-- C8: the two probes return plain booleans and swallow every backend
error (the embeddings are total functions, mirroring the `except Exception`
handlers): health checking is true exactly on a successful tags call and
false on any error, and the tag lookup returns false — it does not raise —
when the backend is unreachable. -/
theorem C8_probes_never_raise (model : String) :
    check_ollama_health (.ok ()) = true ∧
    (∀ e : Unit, check_ollama_health (.error e) = false) ∧
    (∀ e : Unit, model_in_tags (.error e) model = false) :=
  ⟨rfl, fun _ => rfl, fun _ => rfl⟩

/-- C9: text extraction tries `text`, `message`, `response`, `content` in
that order; a (truthy) wrapper value with a string `content` is unwrapped
exactly once; a (non-empty) string value is returned directly; an absent
first attribute defers to the remaining names; with no attribute matching,
the object's string representation is returned; and a doubly wrapped
string is *not* unwrapped twice. -/
theorem C9_extract_text_contract (m rp ct : Option AgentVal)
    (sr c s : String) :
    extract_text ⟨some (.wrapped (.str c) true), m, rp, ct, sr⟩ = c ∧
    (s ≠ "" → extract_text ⟨some (.str s), m, rp, ct, sr⟩ = s) ∧
    extract_text ⟨none, m, rp, ct, sr⟩ = extract_text ⟨m, rp, ct, none, sr⟩ ∧
    extract_text ⟨none, none, none, none, sr⟩ = sr ∧
    extract_text ⟨some (.wrapped (.wrapped (.str s) true) true), none, none,
      none, sr⟩ = sr := by
  refine ⟨rfl, fun hs => ?_, ?_, rfl, rfl⟩
  · simp [extract_text, tryAttr, truthy, hs]
  · cases hm : tryAttr m <;> cases hr : tryAttr rp <;> cases hc : tryAttr ct
      <;> simp [extract_text, tryAttr, hm, hr, hc]

/-- Witness for C9: a plain string under the first attribute name. -/
theorem C9_extract_text_contract_witness :
    extract_text ⟨some (.str "hello"), none, none, none, "repr-fallback"⟩ =
      "hello" :=
  (C9_extract_text_contract none none none "repr-fallback" "c" "hello").2.1
    (by decide)

end AiCodeAgent
